import Mathlib

/-!
Verification development for the ingestion-and-arbitration pipeline of
`src/feedparser/api.py` (the public `parse` entry point of feedparser).

The pipeline is shallowly embedded: the pure control flow of `parse`
(lines 153-297 of `api.py`) is translated into Lean functions, and the
external collaborators that are not part of `src/` (resource acquisition,
`convert_to_utf8`, `replace_doctype`, `make_safe_absolute_uri`, and the
three parser backends) are modelled as explicit function parameters or,
where a claim depends on their behaviour, as definitions modelled from
the specification.  Alongside the final result, the model records a trace
of backend invocations (which backend ran, and with which context values)
so that arbitration claims are statable.
-/

namespace Feedparser

/-- Raw byte buffers are sequences of byte values. -/
abbrev ByteBuf := List Nat

/-- Header mappings (`result['headers']`, entity tables, feed metadata) are
association lists from names to string values; lookup takes the first match,
matching Python dict observable behaviour under `get`. -/
abbrev Headers := List (String × String)

/-- An opaque exception value (`bozo_exception` payloads, SAX exceptions,
JSON backend exceptions). -/
structure Err where
  msg : String
deriving DecidableEq, Repr

/-- Entry records are opaque to the pipeline (the backends produce them and
`parse` only moves them around), so they are modelled as tokens. -/
abbrev Entry := String

/-- The post-condition state of a parser backend object after `feed` ran:
`feeddata`, `entries`, `version` and `namespaces_in_use`, read by
`api.py` lines 293-296. -/
structure BackendOutcome where
  feeddata : Headers
  entries : List Entry
  version : String
  namespaces_in_use : Headers
deriving DecidableEq, Repr

/-- Modelled from the spec: the effect of `_open_resource` (api.py lines
77-137) together with the transport collaborator `http.get`, which is not
under `src/`.  Acquisition yields the resource bytes and may contribute
transport headers and an `href` key into the result.  Per spec section 7,
a transport/acquisition failure surfaces as "no data", never as a
malformed flag, so no bozo contribution is modelled here. -/
structure OpenResult where
  data : ByteBuf
  headers : Headers
  href : Option String
deriving DecidableEq, Repr

/-- Modelled from the spec: the effect of `convert_to_utf8` (module
`encodings`, not under `src/`).  Per spec section 4.1 it returns a
best-effort UTF-8 buffer, resolves `content-type` and `encoding` keys of
the result (an empty `encoding` means no character encoding could be
established, which api.py line 238 maps to a falsy value), and on an
encoding failure records a malformed flag and cause without throwing. -/
structure ConvertResult where
  data : ByteBuf
  contentType : String
  encoding : String
  bozo : Bool
  cause : Option Err
deriving DecidableEq, Repr

/-- Modelled from the spec: the result of `replace_doctype` (module
`sanitizer`, not under `src/`), spec section 4.2: a provisional version
hint (empty when inconclusive, standing for Python `None` which is
equally falsy at api.py line 295), the rewritten buffer, and the
extracted entity table for the lenient backend. -/
structure DoctypeResult where
  version : String
  data : ByteBuf
  entities : Headers
deriving DecidableEq, Repr

/-- The read-only context computed once by `parse` and handed to the
strict and loose backends: base URI, base language and the two
configuration toggles (api.py lines 243-250, 264-266, 288-290). -/
structure ParseContext where
  baseuri : String
  baselang : Option String
  resolve_relative_uris : Bool
  sanitize_html : Bool
deriving DecidableEq, Repr

/-- Which backend a recorded invocation belongs to. -/
inductive BackendKind
  | json
  | strict
  | loose
deriving DecidableEq, Repr

/-- A record of one backend invocation: which backend ran and which
context values were actually handed to it.  `rru`/`sh` are `none` when
the code path did not pass the corresponding toggle to the backend at
all (the JSON path, api.py line 256, sets neither attribute). -/
structure Invocation where
  kind : BackendKind
  baseuri : String
  baselang : Option String
  rru : Option Bool
  sh : Option Bool
deriving DecidableEq, Repr

/-- The returned `FeedParserDict`, modelled as a record.  Keys that the
pipeline only sometimes installs (`version`, `namespaces`,
`content-type`, `encoding`, `href`, `bozo_exception`) are `Option`
fields, `none` meaning the key is absent from the dictionary. -/
structure FPResult where
  bozo : Bool
  bozo_exception : Option Err
  feed : Headers
  entries : List Entry
  version : Option String
  namespaces : Option Headers
  headers : Headers
  content_type : Option String
  encoding : Option String
  href : Option String
deriving DecidableEq, Repr

/-- The key set of the returned dictionary, as a list of key names:
`bozo`, `entries`, `feed` and `headers` are installed unconditionally at
api.py lines 221-226; the optional fields contribute their key exactly
when set. -/
def FPResult.keySet (r : FPResult) : List String :=
  ["bozo", "entries", "feed", "headers"]
    ++ (if r.href.isSome then ["href"] else [])
    ++ (if r.content_type.isSome then ["content-type"] else [])
    ++ (if r.encoding.isSome then ["encoding"] else [])
    ++ (if r.version.isSome then ["version"] else [])
    ++ (if r.namespaces.isSome then ["namespaces"] else [])
    ++ (if r.bozo_exception.isSome then ["bozo_exception"] else [])

/-- The bundle of external collaborators consumed by `parse`.  Each field
mirrors the call signature used in `api.py`: in particular the JSON
backend (line 256) receives only the base URI and base language, while
the strict and loose backends (lines 264-266, 288-290) receive the full
context including the two toggles. -/
structure Collab where
  openResource : String → OpenResult
  convert : Headers → ByteBuf → ConvertResult
  replaceDoctype : ByteBuf → DoctypeResult
  jsonBackend : String → Option String → ByteBuf → Except Err BackendOutcome
  strictBackend : ParseContext → ByteBuf → Except Err BackendOutcome
  looseBackend : ParseContext → Headers → String → BackendOutcome
  decodePermissive : ByteBuf → String

/-- Modelled from the spec: the process-wide default user agent
`feedparser.USER_AGENT` (the package `__init__` is not under `src/`);
its concrete value is irrelevant to the pipeline, only that it is a
fixed non-empty string. -/
def USER_AGENT : String := "feedparser/6"

/-- Modelled from the spec: process-wide default for `sanitize_html`,
`True` per spec section 6. -/
def SANITIZE_HTML : Bool := true

/-- Modelled from the spec: process-wide default for
`resolve_relative_uris`, `True` per spec section 6. -/
def RESOLVE_RELATIVE_URIS : Bool := true

/-- Mirrors api.py line 54: `_XML_AVAILABLE = True` (set unconditionally
in this file). -/
def _XML_AVAILABLE : Bool := true

/-- Python `or` on strings: the left operand unless it is falsy (empty). -/
def pyOrS (a b : String) : String := if a = "" then b else a

/-- First-match lookup in an association list, the observable behaviour
of Python `dict.get`. -/
def lookupH : Headers → String → Option String
  | [], _ => none
  | (k2, v) :: t, k => if k2 = k then some v else lookupH t k

/-- Mirrors `result['headers'].update(response_headers or {})` (api.py
line 234) at the level of lookup observations: after the update, a key
present in `upd` maps to its `upd` value, otherwise to its `base`
value.  Prepending `upd` realises exactly this priority under
first-match `lookupH`. -/
def dictUpdate (base upd : Headers) : Headers := upd ++ base

/-- Modelled from the spec: the acceptable URI scheme list used by the
URI safety predicate (module `urls`, not under `src/`); spec section 4.4
requires that dangerous, script-invoking schemes are excluded. -/
def ACCEPTABLE_URI_SCHEMES : List String :=
  ["http", "https", "ftp", "file", "feed", "mailto", "news", "gopher", "telnet"]

/-- The characters of a URI before its first colon. -/
def takeUntilColon : List Char → List Char
  | [] => []
  | c :: t => if c == ':' then [] else c :: takeUntilColon t

/-- The scheme of a URI string: the text before the first colon, or empty
when there is no colon (a relative reference). -/
def uriScheme (u : String) : String :=
  if u.toList.contains ':' then String.mk (takeUntilColon u.toList) else ""

/-- Modelled from the spec: the URI safety predicate `is_safe_absolute`
of spec section 6 — a candidate qualifies when it is absolute (has a
scheme) and its scheme is in the acceptable list. -/
def isSafeAbsolute (u : String) : Bool :=
  ACCEPTABLE_URI_SCHEMES.contains (uriScheme u)

/-- The prefix of a character list up to and including its last slash
(empty when there is no slash); helper for relative-reference
resolution. -/
def upToLastSlash : List Char → List Char
  | [] => []
  | c :: t => if t.contains '/' then c :: upToLastSlash t
              else if c == '/' then [c] else []

/-- Modelled from the spec: simplified relative-reference resolution
("combination" of spec section 4.4 item c): an absolute reference stands
on its own; a relative reference replaces everything after the last
slash of the base. -/
def urljoinModel (base rel : String) : String :=
  if uriScheme rel = "" then String.mk (upToLastSlash base.toList) ++ rel
  else rel

/-- Modelled from the spec: `make_safe_absolute_uri` (module `urls`, not
under `src/`), reconstructed from spec sections 4.4 and 6.  With an
empty second argument it vets a single candidate: the candidate itself
when safely absolute, else empty (items b and d).  With a non-empty
second argument it implements items a and c for the caller-supplied
location: the location itself when already safely absolute (caller
precedence, item a), else — when the location is a relative reference —
its combination with the second argument, vetted through the safety
predicate before acceptance, else empty. -/
def make_safe_absolute_uri (base rel : String) : String :=
  if rel = "" then
    if isSafeAbsolute base then base else ""
  else
    if isSafeAbsolute base then base
    else if uriScheme base = "" ∧ base ≠ "" then
      let j := urljoinModel rel base
      if isSafeAbsolute j then j else ""
    else ""

/-- Mirrors api.py line 246: `baseuri = make_safe_absolute_uri(href,
contentloc) or make_safe_absolute_uri(contentloc) or href` — note the
final fallback to the raw, unvetted `href`. -/
def computeBaseUri (href contentloc : String) : String :=
  pyOrS (make_safe_absolute_uri href contentloc)
    (pyOrS (make_safe_absolute_uri contentloc "") href)

/-- Mirrors api.py lines 211-213: a falsy `agent` argument (Python `None`
or the empty string) is replaced by the process default. -/
def resolveAgent (agent : Option String) : String :=
  match agent with
  | none => USER_AGENT
  | some a => if a = "" then USER_AGENT else a

/-- Mirrors api.py lines 214-216: `sanitize_html` falls back to the
process default exactly when passed as `None`. -/
def resolveSanitize (x : Option Bool) : Bool := x.getD SANITIZE_HTML

/-- Mirrors api.py lines 217-219: `resolve_relative_uris` falls back to
the process default exactly when passed as `None`. -/
def resolveRru (x : Option Bool) : Bool := x.getD RESOLVE_RELATIVE_URIS

/-- The acquisition step, api.py line 228: `_open_resource` with the
resolved agent. -/
def acqOf (c : Collab) (agentR : String) : OpenResult :=
  c.openResource agentR

/-- Mirrors api.py lines 221-226 plus the acquisition side effects on the
result: the initial result dictionary before the empty-data check. -/
def initialResult (acq : OpenResult) : FPResult :=
  { bozo := false
    bozo_exception := none
    feed := []
    entries := []
    version := none
    namespaces := none
    headers := acq.headers
    content_type := none
    encoding := none
    href := acq.href }

/-- Mirrors api.py line 234: the header mapping after the caller-supplied
`response_headers` overwrite the transport-reported headers. -/
def headersOf (c : Collab) (agentR : String) (rh : Headers) : Headers :=
  dictUpdate (acqOf c agentR).headers rh

/-- Mirrors api.py line 236: `convert_to_utf8(result['headers'], data,
result)` applied to the updated headers and the acquired bytes. -/
def convOf (c : Collab) (agentR : String) (rh : Headers) : ConvertResult :=
  c.convert (headersOf c agentR rh) (acqOf c agentR).data

/-- Mirrors api.py lines 240-241: `replace_doctype` runs only when the
resolved content type is not the JSON dialect; on the JSON path the
buffer is unchanged and no version hint or entities exist. -/
def preOf (c : Collab) (agentR : String) (rh : Headers) : DoctypeResult :=
  if (convOf c agentR rh).contentType = "application/json" then
    ⟨"", (convOf c agentR rh).data, []⟩
  else c.replaceDoctype (convOf c agentR rh).data

/-- Mirrors api.py line 244: the `content-location` transport header,
defaulting to the empty string. -/
def contentlocOf (c : Collab) (agentR : String) (rh : Headers) : String :=
  (lookupH (headersOf c agentR rh) "content-location").getD ""

/-- Mirrors api.py line 245: `result.get('href', '')`. -/
def hrefOf (c : Collab) (agentR : String) : String :=
  ((acqOf c agentR).href).getD ""

/-- Mirrors api.py line 246: the computed base URI. -/
def baseuriOf (c : Collab) (agentR : String) (rh : Headers) : String :=
  computeBaseUri (hrefOf c agentR) (contentlocOf c agentR rh)

/-- Mirrors api.py lines 248-250: the base language from the
`content-language` transport header (header values are already text in
this model, so the bytes-decoding branch is the identity). -/
def baselangOf (c : Collab) (agentR : String) (rh : Headers) : Option String :=
  lookupH (headersOf c agentR rh) "content-language"

/-- The read-only context handed to the strict and loose backends. -/
def ctxOf (c : Collab) (agentR : String) (rh : Headers) (rru sh : Bool) : ParseContext :=
  ⟨baseuriOf c agentR rh, baselangOf c agentR rh, rru, sh⟩

/-- The result dictionary after the header update and the encoding
normalizer ran (api.py lines 234-236): headers replaced by the merged
mapping, `content-type` and `encoding` keys installed, and any
encoding-failure flag and cause recorded. -/
def midResult (c : Collab) (agentR : String) (rh : Headers) : FPResult :=
  { initialResult (acqOf c agentR) with
    headers := headersOf c agentR rh
    content_type := some (convOf c agentR rh).contentType
    encoding := some (convOf c agentR rh).encoding
    bozo := (convOf c agentR rh).bozo
    bozo_exception := (convOf c agentR rh).cause }

/-- Mirrors api.py lines 260-261 and 281-282: a backend failure sets
`bozo` and records the captured cause. -/
def bozoSet (r : FPResult) (e : Err) : FPResult :=
  { r with bozo := true, bozo_exception := some e }

/-- Modelled from the spec: the parser-object state used at the merge
stage when the JSON backend raised (module `parsers.json` is not under
`src/`); per spec sections 4.3 and 7 a JSON-backend failure produces an
otherwise-empty result. -/
def emptyOutcome : BackendOutcome := ⟨[], [], "", []⟩

/-- Mirrors api.py lines 293-296: the adopted backend outcome populates
`feed`, `entries` and `namespaces`, and `version` becomes the
provisional version hint unless falsy, else the backend-detected
version. -/
def mergeOutcome (r : FPResult) (docVersion : String) (out : BackendOutcome) : FPResult :=
  { r with
    feed := out.feeddata
    entries := out.entries
    version := some (pyOrS docVersion out.version)
    namespaces := some out.namespaces_in_use }

/-- Mirrors api.py lines 287-291: the lenient backend invocation — it
receives the full context, the entity table extracted by the
preprocessor, and the permissively decoded text
(`data.decode('utf-8', 'replace')`), and always yields an outcome. -/
def looseRun (c : Collab) (agentR : String) (rh : Headers) (rru sh : Bool) : BackendOutcome :=
  c.looseBackend (ctxOf c agentR rh rru sh) (preOf c agentR rh).entities
    (c.decodePermissive (preOf c agentR rh).data)

/-- The output of one `parse` call: the result dictionary, the trace of
backend invocations (in order), and the agent string handed to the
acquisition step. -/
structure ParseOutput where
  result : FPResult
  trace : List Invocation
  agentUsed : String
deriving DecidableEq, Repr

/-- The pipeline after default resolution, mirroring api.py lines
221-297: acquisition and empty-data short circuit (228-231), header
update and encoding normalization (233-238), doctype preprocessing
(240-241), base context (243-250), the format arbiter (252-291) and the
final merge (293-297). -/
def parseInner (c : Collab) (agentR : String) (rh : Headers) (rru sh : Bool) : ParseOutput :=
  if (acqOf c agentR).data = [] then
    ⟨initialResult (acqOf c agentR), [], agentR⟩
  else if (convOf c agentR rh).contentType = "application/json" then
    match c.jsonBackend (baseuriOf c agentR rh) (baselangOf c agentR rh) (convOf c agentR rh).data with
    | .ok out =>
        ⟨mergeOutcome (midResult c agentR rh) "" out,
         [⟨.json, baseuriOf c agentR rh, baselangOf c agentR rh, none, none⟩], agentR⟩
    | .error e =>
        ⟨mergeOutcome (bozoSet (midResult c agentR rh) e) "" emptyOutcome,
         [⟨.json, baseuriOf c agentR rh, baselangOf c agentR rh, none, none⟩], agentR⟩
  else if _XML_AVAILABLE = true ∧ (convOf c agentR rh).encoding ≠ "" then
    match c.strictBackend (ctxOf c agentR rh rru sh) (preOf c agentR rh).data with
    | .ok out =>
        ⟨mergeOutcome (midResult c agentR rh) (preOf c agentR rh).version out,
         [⟨.strict, baseuriOf c agentR rh, baselangOf c agentR rh, some rru, some sh⟩], agentR⟩
    | .error e =>
        ⟨mergeOutcome (bozoSet (midResult c agentR rh) e) (preOf c agentR rh).version
           (looseRun c agentR rh rru sh),
         [⟨.strict, baseuriOf c agentR rh, baselangOf c agentR rh, some rru, some sh⟩,
          ⟨.loose, baseuriOf c agentR rh, baselangOf c agentR rh, some rru, some sh⟩], agentR⟩
  else
    ⟨mergeOutcome (midResult c agentR rh) (preOf c agentR rh).version
       (looseRun c agentR rh rru sh),
     [⟨.loose, baseuriOf c agentR rh, baselangOf c agentR rh, some rru, some sh⟩], agentR⟩

/-- The public entry point, api.py lines 153-297: resolve the falsy-agent
and `None`-toggle defaults (lines 210-219), then run the pipeline. -/
def parse (c : Collab) (agent : Option String) (rh : Headers)
    (rru0 sh0 : Option Bool) : ParseOutput :=
  parseInner c (resolveAgent agent) rh (resolveRru rru0) (resolveSanitize sh0)

/-! ### Helper lemmas -/

/-- First-match lookup distributes over appending on the left: a hit in the
front list is the hit of the whole list. -/
theorem lookupH_append_left {a : Headers} {k v : String}
    (h : lookupH a k = some v) (b : Headers) :
    lookupH (a ++ b) k = some v := by
  induction a with
  | nil => simp [lookupH] at h
  | cons p t ih =>
    obtain ⟨k2, v2⟩ := p
    by_cases hk : k2 = k
    · simp only [lookupH, if_pos hk] at h
      simpa [lookupH, hk] using h
    · simp only [lookupH, if_neg hk] at h
      simpa [lookupH, hk] using ih h

/-- A URI accepted by the safety predicate is non-empty. -/
theorem isSafeAbsolute_ne_empty {u : String} (h : isSafeAbsolute u = true) :
    u ≠ "" := by
  intro he
  rw [he] at h
  exact absurd h (by decide)

/-- A location that is already safely absolute passes through
`make_safe_absolute_uri` unchanged, whatever the secondary candidate. -/
theorem make_safe_absolute_uri_of_safe {b : String}
    (hb : isSafeAbsolute b = true) (r : String) :
    make_safe_absolute_uri b r = b := by
  unfold make_safe_absolute_uri
  by_cases hr : r = "" <;> simp [hr, hb]

/-- The pipeline hands the resolved agent to acquisition and records it
unchanged on every path. -/
theorem parseInner_agentUsed (c : Collab) (agentR : String) (rh : Headers)
    (rru sh : Bool) :
    (parseInner c agentR rh rru sh).agentUsed = agentR := by
  unfold parseInner
  split
  · rfl
  · split
    · split <;> rfl
    · split
      · split <;> rfl
      · rfl

/-- Every recorded backend invocation carries the base URI and base
language computed once by the pipeline; the strict and loose invocations
carry both resolved toggles, while a JSON invocation carries neither. -/
theorem mem_trace_spec (c : Collab) (agentR : String) (rh : Headers)
    (rru sh : Bool) (inv : Invocation)
    (hmem : inv ∈ (parseInner c agentR rh rru sh).trace) :
    inv.baseuri = baseuriOf c agentR rh ∧
    inv.baselang = baselangOf c agentR rh ∧
    (inv.kind = BackendKind.json → inv.rru = none ∧ inv.sh = none) ∧
    (inv.kind ≠ BackendKind.json → inv.rru = some rru ∧ inv.sh = some sh) := by
  unfold parseInner at hmem
  split at hmem
  · simp at hmem
  · split at hmem
    · split at hmem <;>
      · simp only [List.mem_singleton] at hmem
        subst hmem
        exact ⟨rfl, rfl, fun _ => ⟨rfl, rfl⟩, fun hk => absurd rfl hk⟩
    · split at hmem
      · split at hmem
        · simp only [List.mem_singleton] at hmem
          subst hmem
          exact ⟨rfl, rfl, fun hk => BackendKind.noConfusion hk, fun _ => ⟨rfl, rfl⟩⟩
        · simp only [List.mem_cons, List.mem_singleton] at hmem
          rcases hmem with hmem | hmem | hmem
          · subst hmem
            exact ⟨rfl, rfl, fun hk => BackendKind.noConfusion hk, fun _ => ⟨rfl, rfl⟩⟩
          · subst hmem
            exact ⟨rfl, rfl, fun hk => BackendKind.noConfusion hk, fun _ => ⟨rfl, rfl⟩⟩
          · simp at hmem
      · simp only [List.mem_singleton] at hmem
        subst hmem
        exact ⟨rfl, rfl, fun hk => BackendKind.noConfusion hk, fun _ => ⟨rfl, rfl⟩⟩

/-- On every path that acquires data, the final result's header mapping is
the merged mapping of transport headers and caller overrides. -/
theorem parseInner_headers (c : Collab) (agentR : String) (rh : Headers)
    (rru sh : Bool) (hdata : (acqOf c agentR).data ≠ []) :
    (parseInner c agentR rh rru sh).result.headers = headersOf c agentR rh := by
  unfold parseInner
  rw [if_neg hdata]
  split
  · split <;> simp [mergeOutcome, bozoSet, midResult]
  · split
    · split <;> simp [mergeOutcome, bozoSet, midResult]
    · simp [mergeOutcome, midResult]

/-- On every path that acquires data, the merge stage installs the
`version` and `namespaces` keys. -/
theorem parseInner_version_namespaces (c : Collab) (agentR : String)
    (rh : Headers) (rru sh : Bool) (hdata : (acqOf c agentR).data ≠ []) :
    (parseInner c agentR rh rru sh).result.version.isSome = true ∧
    (parseInner c agentR rh rru sh).result.namespaces.isSome = true := by
  unfold parseInner
  rw [if_neg hdata]
  split
  · split <;> simp [mergeOutcome, bozoSet, midResult]
  · split
    · split <;> simp [mergeOutcome, bozoSet, midResult]
    · simp [mergeOutcome, midResult]

/-- The `version` key name is in the key set whenever the field is set. -/
theorem mem_keySet_version {r : FPResult} (h : r.version.isSome = true) :
    "version" ∈ r.keySet := by
  unfold FPResult.keySet
  simp [h]

/-- The `namespaces` key name is in the key set whenever the field is set. -/
theorem mem_keySet_namespaces {r : FPResult} (h : r.namespaces.isSome = true) :
    "namespaces" ∈ r.keySet := by
  unfold FPResult.keySet
  simp [h]

/-- The four unconditional keys are always in the key set. -/
theorem mem_keySet_base (r : FPResult) :
    "bozo" ∈ r.keySet ∧ "feed" ∈ r.keySet ∧ "entries" ∈ r.keySet ∧
      "headers" ∈ r.keySet := by
  unfold FPResult.keySet
  refine ⟨?_, ?_, ?_, ?_⟩ <;> simp

/-! ### Concrete collaborator instances for witnesses and counterexamples -/

/-- A collaborator bundle for which acquisition yields no data. -/
def collabEmpty : Collab where
  openResource := fun _ => ⟨[], [("content-type", "text/xml")], none⟩
  convert := fun _ d => ⟨d, "text/xml", "utf-8", false, none⟩
  replaceDoctype := fun d => ⟨"rss20", d, []⟩
  jsonBackend := fun _ _ _ => .ok emptyOutcome
  strictBackend := fun _ _ => .ok emptyOutcome
  looseBackend := fun _ _ _ => emptyOutcome
  decodePermissive := fun _ => ""

/-- A second no-data collaborator bundle. -/
def collabNoData : Collab where
  openResource := fun _ => ⟨[], [], none⟩
  convert := fun _ d => ⟨d, "text/xml", "utf-8", false, none⟩
  replaceDoctype := fun d => ⟨"", d, []⟩
  jsonBackend := fun _ _ _ => .ok emptyOutcome
  strictBackend := fun _ _ => .ok emptyOutcome
  looseBackend := fun _ _ _ => emptyOutcome
  decodePermissive := fun _ => ""

/-- A collaborator bundle on which the strict backend raises a structural
failure while the lenient backend recovers. -/
def collabStrictFail : Collab where
  openResource := fun _ =>
    ⟨[60, 114, 62], [("content-location", "http://feeds.example/dir/")],
      some "http://caller.example/feed.xml"⟩
  convert := fun _ d => ⟨d, "text/xml", "utf-8", false, none⟩
  replaceDoctype := fun d => ⟨"rss20", d, [("copy", "interior")]⟩
  jsonBackend := fun _ _ _ => .ok emptyOutcome
  strictBackend := fun _ _ => .error ⟨"not well-formed"⟩
  looseBackend := fun _ _ _ =>
    ⟨[("title", "loose")], ["looseEntry"], "rss", [("p", "http://p.example/")]⟩
  decodePermissive := fun _ => "soup"

/-- A collaborator bundle whose resolved content type is the JSON dialect
and whose JSON backend raises. -/
def collabJsonFail : Collab where
  openResource := fun _ => ⟨[123], [], none⟩
  convert := fun _ d => ⟨d, "application/json", "utf-8", false, none⟩
  replaceDoctype := fun d => ⟨"", d, []⟩
  jsonBackend := fun _ _ _ => .error ⟨"invalid json"⟩
  strictBackend := fun _ _ => .ok emptyOutcome
  looseBackend := fun _ _ _ => emptyOutcome
  decodePermissive := fun _ => ""

/-! ### Claims -/

/-- C1: for every non-JSON input whose strict-XML parse raises a structural
failure, the pipeline falls back to the lenient backend; the returned
feed/entries/namespaces come from the lenient outcome only (the version
being the doctype hint or the lenient backend's detection, never strict
output), and bozo is true with the captured strict-failure cause even
though the lenient attempt succeeds. -/
theorem strict_failure_falls_back_to_loose (c : Collab) (agent : Option String)
    (rh : Headers) (rru0 sh0 : Option Bool) (e : Err)
    (hdata : (acqOf c (resolveAgent agent)).data ≠ [])
    (hjson : (convOf c (resolveAgent agent) rh).contentType ≠ "application/json")
    (henc : (convOf c (resolveAgent agent) rh).encoding ≠ "")
    (hstrict : c.strictBackend
        (ctxOf c (resolveAgent agent) rh (resolveRru rru0) (resolveSanitize sh0))
        (preOf c (resolveAgent agent) rh).data = .error e) :
    (parse c agent rh rru0 sh0).result.feed =
      (looseRun c (resolveAgent agent) rh (resolveRru rru0) (resolveSanitize sh0)).feeddata ∧
    (parse c agent rh rru0 sh0).result.entries =
      (looseRun c (resolveAgent agent) rh (resolveRru rru0) (resolveSanitize sh0)).entries ∧
    (parse c agent rh rru0 sh0).result.namespaces =
      some (looseRun c (resolveAgent agent) rh (resolveRru rru0) (resolveSanitize sh0)).namespaces_in_use ∧
    (parse c agent rh rru0 sh0).result.version =
      some (pyOrS (preOf c (resolveAgent agent) rh).version
        (looseRun c (resolveAgent agent) rh (resolveRru rru0) (resolveSanitize sh0)).version) ∧
    (parse c agent rh rru0 sh0).result.bozo = true ∧
    (parse c agent rh rru0 sh0).result.bozo_exception = some e ∧
    (parse c agent rh rru0 sh0).trace =
      [⟨BackendKind.strict, baseuriOf c (resolveAgent agent) rh,
          baselangOf c (resolveAgent agent) rh,
          some (resolveRru rru0), some (resolveSanitize sh0)⟩,
       ⟨BackendKind.loose, baseuriOf c (resolveAgent agent) rh,
          baselangOf c (resolveAgent agent) rh,
          some (resolveRru rru0), some (resolveSanitize sh0)⟩] := by
  unfold parse parseInner
  rw [if_neg hdata, if_neg hjson, if_pos ⟨rfl, henc⟩, hstrict]
  simp [mergeOutcome, bozoSet, midResult]

/-- C1 witness: a concrete run that fails strict parsing and recovers via
the lenient backend. -/
theorem strict_failure_falls_back_to_loose_witness :
    ((acqOf collabStrictFail (resolveAgent none)).data ≠ [] ∧
      (convOf collabStrictFail (resolveAgent none) []).contentType ≠ "application/json" ∧
      (convOf collabStrictFail (resolveAgent none) []).encoding ≠ "") ∧
    ((parse collabStrictFail none [] none none).result.feed = [("title", "loose")] ∧
      (parse collabStrictFail none [] none none).result.entries = ["looseEntry"] ∧
      (parse collabStrictFail none [] none none).result.bozo = true ∧
      (parse collabStrictFail none [] none none).result.bozo_exception =
        some ⟨"not well-formed"⟩) := by
  have h := strict_failure_falls_back_to_loose collabStrictFail none [] none none
    ⟨"not well-formed"⟩ (by decide) (by decide) (by decide) rfl
  refine ⟨⟨by decide, by decide, by decide⟩, ?_, ?_, h.2.2.2.2.1, h.2.2.2.2.2.1⟩
  · rw [h.1]; decide
  · rw [h.2.1]; decide

/-- C2: for every input whose resolved content type is the JSON dialect,
neither XML backend is ever invoked, and a JSON-backend failure is
terminal: bozo is true with the raised cause and the result is otherwise
empty. -/
theorem json_path_exclusive_and_failure_terminal (c : Collab)
    (agent : Option String) (rh : Headers) (rru0 sh0 : Option Bool)
    (hdata : (acqOf c (resolveAgent agent)).data ≠ [])
    (hjson : (convOf c (resolveAgent agent) rh).contentType = "application/json") :
    (∀ inv ∈ (parse c agent rh rru0 sh0).trace, inv.kind = BackendKind.json) ∧
    (∀ e : Err,
      c.jsonBackend (baseuriOf c (resolveAgent agent) rh)
          (baselangOf c (resolveAgent agent) rh)
          (convOf c (resolveAgent agent) rh).data = .error e →
      (parse c agent rh rru0 sh0).result.bozo = true ∧
      (parse c agent rh rru0 sh0).result.bozo_exception = some e ∧
      (parse c agent rh rru0 sh0).result.entries = [] ∧
      (parse c agent rh rru0 sh0).result.feed = []) := by
  unfold parse parseInner
  rw [if_neg hdata, if_pos hjson]
  cases hjb : c.jsonBackend (baseuriOf c (resolveAgent agent) rh)
      (baselangOf c (resolveAgent agent) rh)
      (convOf c (resolveAgent agent) rh).data with
  | ok out =>
    refine ⟨by simp, fun e he => ?_⟩
    cases he
  | error e2 =>
    refine ⟨by simp, fun e he => ?_⟩
    cases he
    simp [mergeOutcome, bozoSet, midResult, emptyOutcome]

/-- C2 witness: a concrete JSON-typed input whose JSON backend raises. -/
theorem json_path_failure_witness :
    ((acqOf collabJsonFail (resolveAgent none)).data ≠ [] ∧
      (convOf collabJsonFail (resolveAgent none) []).contentType = "application/json") ∧
    (parse collabJsonFail none [] none none).result.bozo = true ∧
    (parse collabJsonFail none [] none none).result.bozo_exception =
      some ⟨"invalid json"⟩ ∧
    (parse collabJsonFail none [] none none).result.entries = [] ∧
    (parse collabJsonFail none [] none none).result.feed = [] := by
  have h := json_path_exclusive_and_failure_terminal collabJsonFail none [] none none
    (by decide) (by decide)
  exact ⟨⟨by decide, by decide⟩, h.2 ⟨"invalid json"⟩ rfl⟩

/-- C6: an empty byte resource short-circuits before any backend is
invoked: bozo is false, entries and feed are empty, and the version and
namespaces keys are not installed (no version detected). -/
theorem empty_input_short_circuits (c : Collab) (agent : Option String)
    (rh : Headers) (rru0 sh0 : Option Bool)
    (hdata : (acqOf c (resolveAgent agent)).data = []) :
    (parse c agent rh rru0 sh0).trace = [] ∧
    (parse c agent rh rru0 sh0).result.bozo = false ∧
    (parse c agent rh rru0 sh0).result.entries = [] ∧
    (parse c agent rh rru0 sh0).result.feed = [] ∧
    (parse c agent rh rru0 sh0).result.version = none ∧
    (parse c agent rh rru0 sh0).result.namespaces = none := by
  unfold parse parseInner
  rw [if_pos hdata]
  simp [initialResult]

/-- C6 witness: a concrete empty acquisition. -/
theorem empty_input_short_circuits_witness :
    (acqOf collabEmpty (resolveAgent none)).data = [] ∧
    ((parse collabEmpty none [] none none).trace = [] ∧
      (parse collabEmpty none [] none none).result.bozo = false ∧
      (parse collabEmpty none [] none none).result.entries = [] ∧
      (parse collabEmpty none [] none none).result.feed = [] ∧
      (parse collabEmpty none [] none none).result.version = none ∧
      (parse collabEmpty none [] none none).result.namespaces = none) :=
  ⟨by decide, empty_input_short_circuits collabEmpty none [] none none (by decide)⟩

/-- A collaborator bundle whose caller-supplied location carries a
script-invoking scheme, with no transport content-location and no
resolvable encoding. -/
def collabUnsafeHref : Collab where
  openResource := fun _ => ⟨[60, 120, 62], [], some "javascript:x"⟩
  convert := fun _ d => ⟨d, "text/html", "", false, none⟩
  replaceDoctype := fun d => ⟨"", d, []⟩
  jsonBackend := fun _ _ _ => .ok emptyOutcome
  strictBackend := fun _ _ => .ok emptyOutcome
  looseBackend := fun _ _ _ => emptyOutcome
  decodePermissive := fun _ => "x"

/-- A collaborator bundle where both the caller-supplied location and the
transport content-location are safe absolute URIs that differ. -/
def collabBothSafe : Collab where
  openResource := fun _ =>
    ⟨[60], [("content-location", "https://transport.example/loc")],
      some "https://caller.example/feed"⟩
  convert := fun _ d => ⟨d, "text/xml", "utf-8", false, none⟩
  replaceDoctype := fun d => ⟨"", d, []⟩
  jsonBackend := fun _ _ _ => .ok emptyOutcome
  strictBackend := fun _ _ => .ok ⟨[("title", "strictT")], ["sEntry"], "atom10", []⟩
  looseBackend := fun _ _ _ => emptyOutcome
  decodePermissive := fun _ => ""

/-- A collaborator bundle on the JSON path with a succeeding JSON
backend. -/
def collabJsonToggles : Collab where
  openResource := fun _ => ⟨[123, 125], [], none⟩
  convert := fun _ d => ⟨d, "application/json", "utf-8", false, none⟩
  replaceDoctype := fun d => ⟨"", d, []⟩
  jsonBackend := fun _ _ _ => .ok ⟨[("title", "j")], ["jsonEntry"], "json1", []⟩
  strictBackend := fun _ _ => .ok emptyOutcome
  looseBackend := fun _ _ _ => emptyOutcome
  decodePermissive := fun _ => ""

/-- A collaborator bundle whose transport reports a header that the
caller also overrides. -/
def collabHdr : Collab where
  openResource := fun _ => ⟨[60], [("x-key", "transport"), ("other", "o")], none⟩
  convert := fun _ d => ⟨d, "text/xml", "utf-8", false, none⟩
  replaceDoctype := fun d => ⟨"", d, []⟩
  jsonBackend := fun _ _ _ => .ok emptyOutcome
  strictBackend := fun _ _ => .ok emptyOutcome
  looseBackend := fun _ _ _ => emptyOutcome
  decodePermissive := fun _ => ""

/-- C3: the claim fails on the code, and the code contradicts its own
comment ("Ensure that baseuri is an absolute URI using an acceptable URI
scheme", api.py line 243): line 246 ends in an unchecked `or href`
fallback, so when neither vetted candidate qualifies, a caller-supplied
location with a script-invoking scheme becomes the base URI handed to
the backend, where the claim requires the empty string. -/
theorem unsafe_href_adopted_as_baseuri :
    isSafeAbsolute "javascript:x" = false ∧
    make_safe_absolute_uri "javascript:x" "" = "" ∧
    baseuriOf collabUnsafeHref USER_AGENT [] = "javascript:x" ∧
    (parse collabUnsafeHref none [] none none).trace =
      [⟨BackendKind.loose, "javascript:x", none, some true, some true⟩] := by
  decide

/-- C4: when the caller-supplied location and the transport-reported
content-location are both safe absolute URIs and differ, the
caller-supplied location is the base URI used on every backend
invocation (this relies on `make_safe_absolute_uri` modelled from the
spec, since `urls.py` is not part of the sources). -/
theorem caller_location_wins_over_content_location (c : Collab)
    (agent : Option String) (rh : Headers) (rru0 sh0 : Option Bool)
    (h cl : String)
    (hhref : (acqOf c (resolveAgent agent)).href = some h)
    (hcl : lookupH (headersOf c (resolveAgent agent) rh) "content-location" = some cl)
    (hsafeh : isSafeAbsolute h = true)
    (hsafec : isSafeAbsolute cl = true)
    (hne : h ≠ cl) :
    baseuriOf c (resolveAgent agent) rh = h ∧
    ∀ inv ∈ (parse c agent rh rru0 sh0).trace, inv.baseuri = h := by
  have hb : baseuriOf c (resolveAgent agent) rh = h := by
    unfold baseuriOf hrefOf contentlocOf computeBaseUri
    rw [hhref, hcl]
    simp only [Option.getD_some]
    rw [make_safe_absolute_uri_of_safe hsafeh]
    unfold pyOrS
    rw [if_neg (isSafeAbsolute_ne_empty hsafeh)]
  refine ⟨hb, fun inv hmem => ?_⟩
  have h2 := mem_trace_spec c (resolveAgent agent) rh (resolveRru rru0)
    (resolveSanitize sh0) inv hmem
  rw [h2.1, hb]

/-- C4 witness: a concrete run with conflicting safe absolute caller and
transport locations. -/
theorem caller_location_wins_witness :
    (isSafeAbsolute "https://caller.example/feed" = true ∧
      isSafeAbsolute "https://transport.example/loc" = true ∧
      "https://caller.example/feed" ≠ "https://transport.example/loc") ∧
    baseuriOf collabBothSafe (resolveAgent none) [] = "https://caller.example/feed" :=
  ⟨⟨by decide, by decide, by decide⟩,
   (caller_location_wins_over_content_location collabBothSafe none [] none none
      "https://caller.example/feed" "https://transport.example/loc"
      (by decide) (by decide) (by decide) (by decide) (by decide)).1⟩

/-- C5: for non-empty non-JSON input, the strict backend is attempted if
and only if a character encoding was resolved (non-empty `encoding`);
with no encoding the pipeline goes directly to the lenient backend,
which receives the permissively decoded text and always yields the
adopted outcome. -/
theorem strict_iff_encoding_resolved (c : Collab) (agent : Option String)
    (rh : Headers) (rru0 sh0 : Option Bool)
    (hdata : (acqOf c (resolveAgent agent)).data ≠ [])
    (hjson : (convOf c (resolveAgent agent) rh).contentType ≠ "application/json") :
    ((∃ inv ∈ (parse c agent rh rru0 sh0).trace, inv.kind = BackendKind.strict) ↔
      (convOf c (resolveAgent agent) rh).encoding ≠ "") ∧
    ((convOf c (resolveAgent agent) rh).encoding = "" →
      (parse c agent rh rru0 sh0).trace =
        [⟨BackendKind.loose, baseuriOf c (resolveAgent agent) rh,
            baselangOf c (resolveAgent agent) rh,
            some (resolveRru rru0), some (resolveSanitize sh0)⟩] ∧
      (parse c agent rh rru0 sh0).result.feed =
        (looseRun c (resolveAgent agent) rh (resolveRru rru0) (resolveSanitize sh0)).feeddata ∧
      (parse c agent rh rru0 sh0).result.entries =
        (looseRun c (resolveAgent agent) rh (resolveRru rru0) (resolveSanitize sh0)).entries ∧
      (parse c agent rh rru0 sh0).result.namespaces =
        some (looseRun c (resolveAgent agent) rh (resolveRru rru0) (resolveSanitize sh0)).namespaces_in_use ∧
      (parse c agent rh rru0 sh0).result.version =
        some (pyOrS (preOf c (resolveAgent agent) rh).version
          (looseRun c (resolveAgent agent) rh (resolveRru rru0) (resolveSanitize sh0)).version)) := by
  unfold parse parseInner
  rw [if_neg hdata, if_neg hjson]
  by_cases henc : (convOf c (resolveAgent agent) rh).encoding = ""
  · rw [if_neg (fun hc => hc.2 henc)]
    refine ⟨?_, fun _ => ?_⟩
    · simp [henc]
    · simp [mergeOutcome, midResult]
  · rw [if_pos ⟨rfl, henc⟩]
    cases hsb : c.strictBackend
        (ctxOf c (resolveAgent agent) rh (resolveRru rru0) (resolveSanitize sh0))
        (preOf c (resolveAgent agent) rh).data with
    | ok out =>
      exact ⟨by simp [henc], fun he => absurd he henc⟩
    | error e =>
      exact ⟨by simp [henc], fun he => absurd he henc⟩

/-- C5 witness: a concrete non-JSON input without a resolved encoding goes
directly to the lenient backend. -/
theorem strict_iff_encoding_witness :
    ((acqOf collabUnsafeHref (resolveAgent none)).data ≠ [] ∧
      (convOf collabUnsafeHref (resolveAgent none) []).contentType ≠ "application/json" ∧
      (convOf collabUnsafeHref (resolveAgent none) []).encoding = "") ∧
    (¬ ∃ inv ∈ (parse collabUnsafeHref none [] none none).trace,
        inv.kind = BackendKind.strict) ∧
    (parse collabUnsafeHref none [] none none).trace =
      [⟨BackendKind.loose, "javascript:x", none, some true, some true⟩] := by
  have h := strict_iff_encoding_resolved collabUnsafeHref none [] none none
    (by decide) (by decide)
  refine ⟨⟨by decide, by decide, by decide⟩, ?_, (h.2 (by decide)).1⟩
  intro hex
  exact h.1.mp hex (by decide)

/-- C7 counterexample: on the empty-input path the returned key set lacks
`version` and `namespaces`, so the key set is not uniform across all
paths as claimed. -/
theorem empty_path_key_set_differs :
    "version" ∉ (parse collabNoData none [] none none).result.keySet ∧
    "namespaces" ∉ (parse collabNoData none [] none none).result.keySet := by
  decide

/-- C7 amended: on every parse that acquires data — whichever backend ran
and whether or not it failed — the result carries all six claimed keys
(`bozo`, `feed`, `entries`, `version`, `namespaces`, `headers`); the
empty-input short circuit alone returns a result without the `version`
and `namespaces` keys. -/
theorem nonempty_key_set_uniform (c : Collab) (agent : Option String)
    (rh : Headers) (rru0 sh0 : Option Bool)
    (hdata : (acqOf c (resolveAgent agent)).data ≠ []) :
    "bozo" ∈ (parse c agent rh rru0 sh0).result.keySet ∧
    "feed" ∈ (parse c agent rh rru0 sh0).result.keySet ∧
    "entries" ∈ (parse c agent rh rru0 sh0).result.keySet ∧
    "version" ∈ (parse c agent rh rru0 sh0).result.keySet ∧
    "namespaces" ∈ (parse c agent rh rru0 sh0).result.keySet ∧
    "headers" ∈ (parse c agent rh rru0 sh0).result.keySet := by
  have hv := parseInner_version_namespaces c (resolveAgent agent) rh
    (resolveRru rru0) (resolveSanitize sh0) hdata
  have hb := mem_keySet_base (parse c agent rh rru0 sh0).result
  exact ⟨hb.1, hb.2.1, hb.2.2.1, mem_keySet_version hv.1,
    mem_keySet_namespaces hv.2, hb.2.2.2⟩

/-- C7 witness: a concrete non-empty parse carries all six claimed keys. -/
theorem nonempty_key_set_uniform_witness :
    (acqOf collabStrictFail (resolveAgent none)).data ≠ [] ∧
    ("bozo" ∈ (parse collabStrictFail none [] none none).result.keySet ∧
      "feed" ∈ (parse collabStrictFail none [] none none).result.keySet ∧
      "entries" ∈ (parse collabStrictFail none [] none none).result.keySet ∧
      "version" ∈ (parse collabStrictFail none [] none none).result.keySet ∧
      "namespaces" ∈ (parse collabStrictFail none [] none none).result.keySet ∧
      "headers" ∈ (parse collabStrictFail none [] none none).result.keySet) :=
  ⟨by decide, nonempty_key_set_uniform collabStrictFail none [] none none (by decide)⟩

/-- C8: for every parse with non-empty data, a header key supplied both by
the transport and by the caller's `response_headers` ends up with the
caller-supplied value in the final result. -/
theorem response_header_overrides_win (c : Collab) (agent : Option String)
    (rh : Headers) (rru0 sh0 : Option Bool) (k v1 v2 : String)
    (hdata : (acqOf c (resolveAgent agent)).data ≠ [])
    (ht : lookupH (acqOf c (resolveAgent agent)).headers k = some v1)
    (ho : lookupH rh k = some v2) :
    lookupH (parse c agent rh rru0 sh0).result.headers k = some v2 := by
  unfold parse
  rw [parseInner_headers c (resolveAgent agent) rh (resolveRru rru0)
    (resolveSanitize sh0) hdata]
  unfold headersOf dictUpdate
  exact lookupH_append_left ho _

/-- C8 witness: a concrete override of a transport-reported header. -/
theorem response_header_overrides_win_witness :
    ((acqOf collabHdr (resolveAgent none)).data ≠ [] ∧
      lookupH (acqOf collabHdr (resolveAgent none)).headers "x-key" = some "transport" ∧
      lookupH [("x-key", "caller")] "x-key" = some "caller") ∧
    lookupH (parse collabHdr none [("x-key", "caller")] none none).result.headers
      "x-key" = some "caller" :=
  ⟨⟨by decide, by decide, by decide⟩,
   response_header_overrides_win collabHdr none [("x-key", "caller")] none none
     "x-key" "transport" "caller" (by decide) (by decide) (by decide)⟩

/-- C9 counterexample: with both toggles supplied as `true`, the JSON
backend is invoked without either toggle (api.py line 256 passes only
the base URI and base language to `JSONParser`), so the toggles do not
reach the backend on the JSON path. -/
theorem json_invocation_lacks_toggles :
    (parse collabJsonToggles none [] (some true) (some true)).trace =
      [⟨BackendKind.json, "", none, none, none⟩] := by
  decide

/-- C9 amended: every backend invocation carries the base URI and base
language computed once by the pipeline; the strict and loose invocations
additionally carry the resolved `resolve_relative_uris` and
`sanitize_html` toggles, but a JSON invocation receives neither
toggle. -/
theorem backend_invocation_context_by_kind (c : Collab)
    (agent : Option String) (rh : Headers) (rru0 sh0 : Option Bool) :
    ∀ inv ∈ (parse c agent rh rru0 sh0).trace,
      inv.baseuri = baseuriOf c (resolveAgent agent) rh ∧
      inv.baselang = baselangOf c (resolveAgent agent) rh ∧
      (inv.kind = BackendKind.json → inv.rru = none ∧ inv.sh = none) ∧
      (inv.kind ≠ BackendKind.json →
        inv.rru = some (resolveRru rru0) ∧ inv.sh = some (resolveSanitize sh0)) :=
  fun inv hmem =>
    mem_trace_spec c (resolveAgent agent) rh (resolveRru rru0)
      (resolveSanitize sh0) inv hmem

/-- C9 witness: the traced JSON invocation of a concrete run satisfies the
kind-dependent context description. -/
theorem backend_invocation_context_witness :
    ((⟨BackendKind.json, "", none, none, none⟩ : Invocation) ∈
      (parse collabJsonToggles none [] (some true) (some true)).trace) ∧
    ((⟨BackendKind.json, "", none, none, none⟩ : Invocation).rru = none ∧
      (⟨BackendKind.json, "", none, none, none⟩ : Invocation).sh = none) := by
  have hm : (⟨BackendKind.json, "", none, none, none⟩ : Invocation) ∈
      (parse collabJsonToggles none [] (some true) (some true)).trace := by decide
  exact ⟨hm,
    (backend_invocation_context_by_kind collabJsonToggles none [] (some true)
      (some true) _ hm).2.2.1 rfl⟩

/-- C10: a falsy agent argument (None or the empty string) is replaced by
the process-wide default user agent before acquisition, while the two
toggles fall back to their process-wide defaults exactly when passed as
None (an explicit Boolean is kept). -/
theorem falsy_agent_and_none_toggles_use_defaults (c : Collab) (rh : Headers)
    (rru0 sh0 : Option Bool) (a : String) (b : Bool) :
    parse c none rh rru0 sh0 = parse c (some USER_AGENT) rh rru0 sh0 ∧
    parse c (some "") rh rru0 sh0 = parse c (some USER_AGENT) rh rru0 sh0 ∧
    (parse c none rh rru0 sh0).agentUsed = USER_AGENT ∧
    (parse c (some "") rh rru0 sh0).agentUsed = USER_AGENT ∧
    (a ≠ "" → (parse c (some a) rh rru0 sh0).agentUsed = a) ∧
    resolveSanitize none = SANITIZE_HTML ∧
    resolveSanitize (some b) = b ∧
    resolveRru none = RESOLVE_RELATIVE_URIS ∧
    resolveRru (some b) = b := by
  have h0 : resolveAgent none = USER_AGENT := rfl
  have h1 : resolveAgent (some USER_AGENT) = USER_AGENT := by decide
  have h2 : resolveAgent (some "") = USER_AGENT := by decide
  refine ⟨?_, ?_, ?_, ?_, ?_, rfl, rfl, rfl, rfl⟩
  · unfold parse
    rw [h0, h1]
  · unfold parse
    rw [h2, h1]
  · unfold parse
    rw [h0]
    exact parseInner_agentUsed c USER_AGENT rh _ _
  · unfold parse
    rw [h2]
    exact parseInner_agentUsed c USER_AGENT rh _ _
  · intro ha
    unfold parse
    have h3 : resolveAgent (some a) = a := by
      show (if a = "" then USER_AGENT else a) = a
      rw [if_neg ha]
    rw [h3]
    exact parseInner_agentUsed c a rh _ _

/-- C10 witness: concrete falsy and non-falsy agents. -/
theorem falsy_agent_defaults_witness :
    ("customAgent" ≠ "") ∧
    (parse collabNoData none [] none none).agentUsed = USER_AGENT ∧
    (parse collabNoData (some "") [] none none).agentUsed = USER_AGENT ∧
    (parse collabNoData (some "customAgent") [] none none).agentUsed = "customAgent" := by
  have h := falsy_agent_and_none_toggles_use_defaults collabNoData [] none none
    "customAgent" true
  exact ⟨by decide, h.2.2.1, h.2.2.2.1, h.2.2.2.2.1 (by decide)⟩

end Feedparser
